import Mathlib

/-
Verification of the totals presenter in
src/src/modules/common/components/cart-totals/index.tsx.

The component destructures six monetary fields (each `number | null | undefined`
at runtime, where a number may be NaN) from the `data` prop, formats each with
`getAmount` (which passes `amount || 0` together with `data.region` and
`includeTaxes: false` to the external `formatAmount`), and renders a fixed
sequence of rows; the Discount and Gift-card rows are gated on JS truthiness
(`!!discount_total`, `!!gift_card_total`) and carry a leading "- " before the
formatted amount.  Each rendered amount cell also exposes the raw value
`field || 0` in a `data-value` attribute and a stable `data-testid`.
-/

namespace ShpcStore

/-- A JS runtime value of TypeScript type `number | null | undefined`.
Finite numbers are modelled as rationals (`-0` is identified with `0`;
the infinities, which never arise in these claims, are not modelled);
`NaN` is a separate constructor because it is falsy yet is a number. -/
inductive JsVal where
  | undef
  | null
  | nan
  | num (q : ℚ)
deriving DecidableEq

/-- JS truthiness of a `number | null | undefined` value: `null`, `undefined`,
`NaN` and `0` are falsy, every other number is truthy.  This is the semantics
of `!!v` and of the condition position of `v && _` and `v || _`. -/
def JsVal.truthy : JsVal → Bool
  | .num q => decide (q ≠ 0)
  | _ => false

/-- The JS expression `v || 0`: `v` itself when truthy, otherwise the number 0.
This is the operation the source applies both in `getAmount` (`amount || 0`)
and in every `data-value={field || 0}` attribute. -/
def jsOr (v : JsVal) : JsVal :=
  if v.truthy then v else JsVal.num 0

/-- Modelled from the spec: the nullish-coalescing rule `v ?? 0` that the spec
uses to describe amount resolution ("the effective value is `f ?? 0`").
`??` substitutes 0 only for `null`/`undefined`; in particular `NaN ?? 0 = NaN`
and `0 ?? 0 = 0`.  Kept separate from `jsOr` (what the code actually computes)
so the two rules can be compared. -/
def jsCoalesce : JsVal → JsVal
  | .undef => .num 0
  | .null => .num 0
  | v => v

/-- The opaque region descriptor (`data.region`); only its identity matters to
this component, which forwards it unchanged to the formatter. -/
structure Region where
  currencyCode : String
deriving DecidableEq

/-- The argument object of one call to the external `formatAmount`
(`{ amount, region, includeTaxes }`). -/
structure FormatArgs where
  amount : JsVal
  region : Region
  includeTaxes : Bool
deriving DecidableEq

/-- The fields of the `data` prop that `CartTotals` reads: the six monetary
fields destructured at the top of the component, plus `data.region`. -/
structure TotalsRecord where
  subtotal : JsVal
  discount_total : JsVal
  gift_card_total : JsVal
  tax_total : JsVal
  shipping_total : JsVal
  total : JsVal
  region : Region
deriving DecidableEq

/-- One rendered totals row: its `data-testid`, its visible label, the raw
`data-value` attribute, the argument object of the `formatAmount` call that
produced its amount string, and the full amount text of the cell (including
the "- " marker where the JSX writes `- {getAmount(...)}`). -/
structure Row where
  testId : String
  label : String
  dataValue : JsVal
  call : FormatArgs
  amountText : String
deriving DecidableEq

/-- The argument object that `getAmount` builds for a field value:
`{ amount: amount || 0, region: data.region, includeTaxes: false }`
(source lines 52–58). -/
def getAmountArgs (data : TotalsRecord) (amount : JsVal) : FormatArgs :=
  { amount := jsOr amount, region := data.region, includeTaxes := false }

/-- `getAmount` itself: the formatted string returned by the external
`formatAmount` on those arguments. -/
def getAmount (fmt : FormatArgs → String) (data : TotalsRecord) (amount : JsVal) : String :=
  fmt (getAmountArgs data amount)

/-- The Subtotal row (source lines 63–73): always rendered, no marker. -/
def subtotalRow (fmt : FormatArgs → String) (data : TotalsRecord) : Row :=
  { testId := "cart-subtotal", label := "Subtotal", dataValue := jsOr data.subtotal,
    call := getAmountArgs data data.subtotal,
    amountText := getAmount fmt data data.subtotal }

/-- The Discount row (source lines 74–85): rendered only when
`!!discount_total`, amount text `- {getAmount(discount_total)}`. -/
def discountRow (fmt : FormatArgs → String) (data : TotalsRecord) : Row :=
  { testId := "cart-discount", label := "Discount", dataValue := jsOr data.discount_total,
    call := getAmountArgs data data.discount_total,
    amountText := "- " ++ getAmount fmt data data.discount_total }

/-- The Shipping row (source lines 86–91): always rendered, no marker. -/
def shippingRow (fmt : FormatArgs → String) (data : TotalsRecord) : Row :=
  { testId := "cart-shipping", label := "Shipping", dataValue := jsOr data.shipping_total,
    call := getAmountArgs data data.shipping_total,
    amountText := getAmount fmt data data.shipping_total }

/-- The Taxes row (source lines 92–97): always rendered, no marker. -/
def taxesRow (fmt : FormatArgs → String) (data : TotalsRecord) : Row :=
  { testId := "cart-taxes", label := "Taxes", dataValue := jsOr data.tax_total,
    call := getAmountArgs data data.tax_total,
    amountText := getAmount fmt data data.tax_total }

/-- The Gift-card row (source lines 98–109): rendered only when
`!!gift_card_total`, amount text `- {getAmount(gift_card_total)}`. -/
def giftCardRow (fmt : FormatArgs → String) (data : TotalsRecord) : Row :=
  { testId := "cart-gift-card-amount", label := "Gift card", dataValue := jsOr data.gift_card_total,
    call := getAmountArgs data data.gift_card_total,
    amountText := "- " ++ getAmount fmt data data.gift_card_total }

/-- The Total row (source lines 112–121): always rendered, no marker. -/
def totalRow (fmt : FormatArgs → String) (data : TotalsRecord) : Row :=
  { testId := "cart-total", label := "Total", dataValue := jsOr data.total,
    call := getAmountArgs data data.total,
    amountText := getAmount fmt data data.total }

/-- The ordered sequence of rows the `CartTotals` component renders
(source lines 60–123), with the two truthiness-gated optional rows in their
fixed positions.  `fmt` is the external `formatAmount`, a black box. -/
def CartTotals (fmt : FormatArgs → String) (data : TotalsRecord) : List Row :=
  [subtotalRow fmt data]
    ++ (if data.discount_total.truthy then [discountRow fmt data] else [])
    ++ [shippingRow fmt data, taxesRow fmt data]
    ++ (if data.gift_card_total.truthy then [giftCardRow fmt data] else [])
    ++ [totalRow fmt data]

/-- Concrete black-box formatter used for witnesses. -/
def fmt0 : FormatArgs → String := fun _ => "$0.00"

/-- Concrete region used for witnesses. -/
def region0 : Region := { currencyCode := "usd" }

/-- Concrete record (spec Scenario B shape) used for witnesses. -/
def data0 : TotalsRecord :=
  { subtotal := .num 1000, discount_total := .num 200, gift_card_total := .null,
    tax_total := .num 80, shipping_total := .num 0, total := .num 880, region := region0 }

/-- Concrete record with every monetary field null (spec Scenario C). -/
def dataAllNull : TotalsRecord :=
  { subtotal := .null, discount_total := .null, gift_card_total := .null,
    tax_total := .null, shipping_total := .null, total := .null, region := region0 }

/-- Concrete record whose subtotal is NaN. -/
def dataNan : TotalsRecord :=
  { subtotal := .nan, discount_total := .null, gift_card_total := .null,
    tax_total := .null, shipping_total := .null, total := .null, region := region0 }

/-- Concrete record with every monetary field NaN. -/
def dataNanAll : TotalsRecord :=
  { subtotal := .nan, discount_total := .nan, gift_card_total := .nan,
    tax_total := .nan, shipping_total := .nan, total := .nan, region := region0 }

/-- Concrete record with negative discount and gift-card totals. -/
def dataNeg : TotalsRecord :=
  { subtotal := .num 1000, discount_total := .num (-5), gift_card_total := .num (-5),
    tax_total := .num 80, shipping_total := .num 0, total := .num 880, region := region0 }

/-- Truthiness characterisation: a value is truthy exactly when it is a
non-zero (non-NaN) number. -/
theorem truthy_iff_nonzero_num (v : JsVal) :
    v.truthy = true ↔ ∃ q : ℚ, q ≠ 0 ∧ v = JsVal.num q := by
  cases v <;> simp [JsVal.truthy]

/-- Membership characterisation of the rendered row list. -/
theorem mem_CartTotals (fmt : FormatArgs → String) (data : TotalsRecord) (r : Row) :
    r ∈ CartTotals fmt data ↔
      r = subtotalRow fmt data
        ∨ (data.discount_total.truthy = true ∧ r = discountRow fmt data)
        ∨ r = shippingRow fmt data
        ∨ r = taxesRow fmt data
        ∨ (data.gift_card_total.truthy = true ∧ r = giftCardRow fmt data)
        ∨ r = totalRow fmt data := by
  unfold CartTotals
  cases hd : data.discount_total.truthy <;> cases hg : data.gift_card_total.truthy <;>
    simp [hd, hg]

/-- Claim C1: for every input record, the Discount row is present in the output
iff `discount_total` is a non-zero truthy number, and the Gift-card row is
present iff `gift_card_total` is a non-zero truthy number; a null, undefined,
or zero value hides the row. -/
theorem discount_and_gift_rows_iff_truthy (fmt : FormatArgs → String) (data : TotalsRecord) :
    ((∃ r ∈ CartTotals fmt data, r.testId = "cart-discount") ↔
        ∃ q : ℚ, q ≠ 0 ∧ data.discount_total = JsVal.num q)
      ∧ ((∃ r ∈ CartTotals fmt data, r.testId = "cart-gift-card-amount") ↔
        ∃ q : ℚ, q ≠ 0 ∧ data.gift_card_total = JsVal.num q) := by
  constructor
  · rw [← truthy_iff_nonzero_num]
    constructor
    · rintro ⟨r, hr, hid⟩
      rcases (mem_CartTotals fmt data r).1 hr with h | ⟨ht, h⟩ | h | h | ⟨ht, h⟩ | h <;>
        subst h <;>
        simp_all [subtotalRow, discountRow, shippingRow, taxesRow, giftCardRow, totalRow]
    · intro ht
      exact ⟨discountRow fmt data,
        (mem_CartTotals fmt data _).2 (Or.inr (Or.inl ⟨ht, rfl⟩)), rfl⟩
  · rw [← truthy_iff_nonzero_num]
    constructor
    · rintro ⟨r, hr, hid⟩
      rcases (mem_CartTotals fmt data r).1 hr with h | ⟨ht, h⟩ | h | h | ⟨ht, h⟩ | h <;>
        subst h <;>
        simp_all [subtotalRow, discountRow, shippingRow, taxesRow, giftCardRow, totalRow]
    · intro ht
      exact ⟨giftCardRow fmt data,
        (mem_CartTotals fmt data _).2 (Or.inr (Or.inr (Or.inr (Or.inr (Or.inl ⟨ht, rfl⟩))))), rfl⟩

/-- Claim C4: for every input record, the Subtotal, Shipping, Taxes, and Total
rows appear in the output regardless of the value of their fields, including
when the field is zero, null, or undefined. -/
theorem mandatory_rows_always_present (fmt : FormatArgs → String) (data : TotalsRecord) :
    (∃ r ∈ CartTotals fmt data, r.testId = "cart-subtotal")
      ∧ (∃ r ∈ CartTotals fmt data, r.testId = "cart-shipping")
      ∧ (∃ r ∈ CartTotals fmt data, r.testId = "cart-taxes")
      ∧ (∃ r ∈ CartTotals fmt data, r.testId = "cart-total") := by
  refine ⟨⟨subtotalRow fmt data, ?_, rfl⟩, ⟨shippingRow fmt data, ?_, rfl⟩,
    ⟨taxesRow fmt data, ?_, rfl⟩, ⟨totalRow fmt data, ?_, rfl⟩⟩ <;>
    rw [mem_CartTotals] <;> tauto

/-- Claim C5: for every input record, the emitted rows appear in the fixed
order Subtotal, Discount, Shipping, Taxes, Gift card, Total (omitting hidden
optional rows): the label sequence is always a sublist of that fixed order,
so no input can reorder the rows. -/
theorem rows_fixed_order (fmt : FormatArgs → String) (data : TotalsRecord) :
    List.Sublist ((CartTotals fmt data).map Row.label)
      ["Subtotal", "Discount", "Shipping", "Taxes", "Gift card", "Total"] := by
  unfold CartTotals
  cases hd : data.discount_total.truthy <;> cases hg : data.gift_card_total.truthy <;>
    simp [hd, hg, subtotalRow, discountRow, shippingRow, taxesRow, giftCardRow, totalRow]

/-- Claim C2, counterexample: with a NaN subtotal, the amount handed to the
formatter for the Subtotal row is the number 0, but `subtotal ?? 0` is NaN —
the code computes `amount || 0`, not `amount ?? 0`, and the two differ at
NaN. -/
theorem effective_amount_ne_coalesce :
    (subtotalRow fmt0 dataNan).call.amount ≠ jsCoalesce dataNan.subtotal := by
  decide

/-- Claim C2, amended: for every monetary field value `v`, the effective
amount handed to the external formatter equals `v || 0`: it is the number 0
exactly when `v` is null, undefined, NaN, or zero, and equals `v` itself for
every other numeric value of `v`. -/
theorem effective_amount_or_zero (data : TotalsRecord) (v : JsVal) :
    ((getAmountArgs data v).amount = JsVal.num 0 ↔
        (v = JsVal.null ∨ v = JsVal.undef ∨ v = JsVal.nan ∨ v = JsVal.num 0))
      ∧ (∀ q : ℚ, q ≠ 0 → v = JsVal.num q → (getAmountArgs data v).amount = JsVal.num q) := by
  constructor
  · cases v <;> simp [getAmountArgs, jsOr, JsVal.truthy]
  · rintro q hq rfl
    simp [getAmountArgs, jsOr, JsVal.truthy, hq]

/-- Claim C2, witness for the amended theorem at `v = 7` and at `v = null`. -/
theorem effective_amount_or_zero_witness :
    (getAmountArgs data0 (JsVal.num 7)).amount = JsVal.num 7
      ∧ (getAmountArgs data0 JsVal.null).amount = JsVal.num 0 :=
  ⟨(effective_amount_or_zero data0 (JsVal.num 7)).2 7 (by decide) rfl,
    (effective_amount_or_zero data0 JsVal.null).1.2 (Or.inl rfl)⟩

/-- Claim C3: for every monetary field, if the field is null or undefined the
raw `data-value` exposed on that field's row is 0; and with every field null,
the output is exactly the four always-visible rows, each with raw value 0 and
formatted amount `formatAmount` applied to the number 0. -/
theorem null_fields_raw_zero (fmt : FormatArgs → String) (data : TotalsRecord) :
    ((data.subtotal = JsVal.null ∨ data.subtotal = JsVal.undef) →
        ∀ r ∈ CartTotals fmt data, r.testId = "cart-subtotal" → r.dataValue = JsVal.num 0)
      ∧ ((data.discount_total = JsVal.null ∨ data.discount_total = JsVal.undef) →
        ∀ r ∈ CartTotals fmt data, r.testId = "cart-discount" → r.dataValue = JsVal.num 0)
      ∧ ((data.gift_card_total = JsVal.null ∨ data.gift_card_total = JsVal.undef) →
        ∀ r ∈ CartTotals fmt data, r.testId = "cart-gift-card-amount" → r.dataValue = JsVal.num 0)
      ∧ ((data.tax_total = JsVal.null ∨ data.tax_total = JsVal.undef) →
        ∀ r ∈ CartTotals fmt data, r.testId = "cart-taxes" → r.dataValue = JsVal.num 0)
      ∧ ((data.shipping_total = JsVal.null ∨ data.shipping_total = JsVal.undef) →
        ∀ r ∈ CartTotals fmt data, r.testId = "cart-shipping" → r.dataValue = JsVal.num 0)
      ∧ ((data.total = JsVal.null ∨ data.total = JsVal.undef) →
        ∀ r ∈ CartTotals fmt data, r.testId = "cart-total" → r.dataValue = JsVal.num 0)
      ∧ ((data.subtotal = JsVal.null ∧ data.discount_total = JsVal.null
            ∧ data.gift_card_total = JsVal.null ∧ data.tax_total = JsVal.null
            ∧ data.shipping_total = JsVal.null ∧ data.total = JsVal.null) →
        (CartTotals fmt data).map (fun r => (r.testId, r.dataValue, r.call.amount)) =
          [("cart-subtotal", JsVal.num 0, JsVal.num 0),
            ("cart-shipping", JsVal.num 0, JsVal.num 0),
            ("cart-taxes", JsVal.num 0, JsVal.num 0),
            ("cart-total", JsVal.num 0, JsVal.num 0)]) := by
  refine ⟨?_, ?_, ?_, ?_, ?_, ?_, ?_⟩
  all_goals
    first
      | (rintro ⟨h1, h2, h3, h4, h5, h6⟩
         unfold CartTotals
         rw [h2, h3]
         simp [h1, h2, h3, h4, h5, h6, JsVal.truthy, subtotalRow, shippingRow, taxesRow,
           totalRow, getAmountArgs, jsOr])
      | (intro hf r hr hid
         rcases (mem_CartTotals fmt data r).1 hr with h | ⟨ht, h⟩ | h | h | ⟨ht, h⟩ | h <;>
           subst h <;>
           rcases hf with hf | hf <;>
           simp_all [subtotalRow, discountRow, shippingRow, taxesRow, giftCardRow, totalRow,
             jsOr, JsVal.truthy])

/-- Claim C3, witness: with every field null, the four rows all carry raw
value 0 and amount 0, in particular the subtotal row. -/
theorem null_fields_raw_zero_witness :
    (CartTotals fmt0 dataAllNull).map (fun r => (r.testId, r.dataValue, r.call.amount)) =
      [("cart-subtotal", JsVal.num 0, JsVal.num 0),
        ("cart-shipping", JsVal.num 0, JsVal.num 0),
        ("cart-taxes", JsVal.num 0, JsVal.num 0),
        ("cart-total", JsVal.num 0, JsVal.num 0)] :=
  (null_fields_raw_zero fmt0 dataAllNull).2.2.2.2.2.2 ⟨rfl, rfl, rfl, rfl, rfl, rfl⟩

/-- Claim C6: for every input record, the Discount and Gift-card amount cells
carry a leading "- " before the formatter output, and the Subtotal, Shipping,
Taxes, and Total amount cells are exactly the formatter output with no
marker. -/
theorem negative_marker_on_deductions (fmt : FormatArgs → String) (data : TotalsRecord) :
    ∀ r ∈ CartTotals fmt data,
      ((r.label = "Discount" ∨ r.label = "Gift card") →
          r.amountText = "- " ++ fmt r.call)
        ∧ ((r.label = "Subtotal" ∨ r.label = "Shipping" ∨ r.label = "Taxes"
              ∨ r.label = "Total") →
          r.amountText = fmt r.call) := by
  intro r hr
  rcases (mem_CartTotals fmt data r).1 hr with h | ⟨ht, h⟩ | h | h | ⟨ht, h⟩ | h <;>
    subst h <;>
    constructor <;>
    simp [subtotalRow, discountRow, shippingRow, taxesRow, giftCardRow, totalRow, getAmount]

/-- Claim C6, witness: in Scenario B data the Subtotal row text is the bare
formatter output and the Discount row text is the prefixed formatter output. -/
theorem negative_marker_on_deductions_witness :
    (subtotalRow fmt0 data0).amountText = fmt0 (subtotalRow fmt0 data0).call
      ∧ (discountRow fmt0 data0).amountText = "- " ++ fmt0 (discountRow fmt0 data0).call :=
  ⟨(negative_marker_on_deductions fmt0 data0 (subtotalRow fmt0 data0)
        ((mem_CartTotals fmt0 data0 _).2 (Or.inl rfl))).2 (Or.inl rfl),
    (negative_marker_on_deductions fmt0 data0 (discountRow fmt0 data0)
        ((mem_CartTotals fmt0 data0 _).2 (Or.inr (Or.inl ⟨by decide, rfl⟩)))).1 (Or.inl rfl)⟩

/-- Claim C7: every formatter call the presenter makes passes the record's own
region descriptor and `includeTaxes = false`; no row is formatted with any
other region or tax flag. -/
theorem calls_use_own_region_no_taxes (fmt : FormatArgs → String) (data : TotalsRecord) :
    ∀ r ∈ CartTotals fmt data,
      r.call.region = data.region ∧ r.call.includeTaxes = false := by
  intro r hr
  rcases (mem_CartTotals fmt data r).1 hr with h | ⟨ht, h⟩ | h | h | ⟨ht, h⟩ | h <;>
    subst h <;>
    exact ⟨rfl, rfl⟩

/-- Claim C7, witness: the Subtotal row of Scenario B data is formatted with
`region0` and `includeTaxes = false`. -/
theorem calls_use_own_region_no_taxes_witness :
    (subtotalRow fmt0 data0).call.region = data0.region
      ∧ (subtotalRow fmt0 data0).call.includeTaxes = false :=
  calls_use_own_region_no_taxes fmt0 data0 (subtotalRow fmt0 data0)
    ((mem_CartTotals fmt0 data0 _).2 (Or.inl rfl))

/-- Claim C8: the presenter is deterministic and idempotent: two invocations
with equal input records, through a referentially transparent formatter,
produce identical row sequences (labels, visibility, raw values, and
formatted strings alike). -/
theorem presenter_deterministic (fmt1 fmt2 : FormatArgs → String)
    (data1 data2 : TotalsRecord) (hf : ∀ a, fmt1 a = fmt2 a) (hd : data1 = data2) :
    CartTotals fmt1 data1 = CartTotals fmt2 data2 := by
  subst hd
  have hfe : fmt1 = fmt2 := funext hf
  subst hfe
  rfl

/-- Claim C8, witness: re-invoking the presenter on Scenario B data yields the
same rows. -/
theorem presenter_deterministic_witness :
    CartTotals fmt0 data0 = CartTotals fmt0 data0 :=
  presenter_deterministic fmt0 fmt0 data0 data0 (fun _ => rfl) rfl

/-- Claim C9: with a negative `discount_total` (or `gift_card_total`) the
corresponding row is rendered (negative numbers are truthy), the negative
value is passed unclamped to the formatter, and the "- " marker is still
prepended to the formatter output, producing the double negative. -/
theorem negative_deduction_double_marker (fmt : FormatArgs → String)
    (data : TotalsRecord) (q : ℚ) (hq : q < 0) :
    (data.discount_total = JsVal.num q →
        discountRow fmt data ∈ CartTotals fmt data
          ∧ (discountRow fmt data).call.amount = JsVal.num q
          ∧ (discountRow fmt data).amountText = "- " ++ fmt ((discountRow fmt data).call))
      ∧ (data.gift_card_total = JsVal.num q →
        giftCardRow fmt data ∈ CartTotals fmt data
          ∧ (giftCardRow fmt data).call.amount = JsVal.num q
          ∧ (giftCardRow fmt data).amountText = "- " ++ fmt ((giftCardRow fmt data).call)) := by
  have hq0 : q ≠ 0 := ne_of_lt hq
  constructor
  · intro h
    have ht : data.discount_total.truthy = true := by
      rw [h]; simp [JsVal.truthy, hq0]
    exact ⟨(mem_CartTotals fmt data _).2 (Or.inr (Or.inl ⟨ht, rfl⟩)),
      by simp [discountRow, getAmountArgs, h, jsOr, JsVal.truthy, hq0],
      by simp [discountRow, getAmount]⟩
  · intro h
    have ht : data.gift_card_total.truthy = true := by
      rw [h]; simp [JsVal.truthy, hq0]
    exact ⟨(mem_CartTotals fmt data _).2 (Or.inr (Or.inr (Or.inr (Or.inr (Or.inl ⟨ht, rfl⟩))))),
      by simp [giftCardRow, getAmountArgs, h, jsOr, JsVal.truthy, hq0],
      by simp [giftCardRow, getAmount]⟩

/-- Claim C9, witness: with `discount_total = gift_card_total = -5` both rows
are rendered, carry amount -5, and keep the "- " marker. -/
theorem negative_deduction_double_marker_witness :
    (discountRow fmt0 dataNeg ∈ CartTotals fmt0 dataNeg
        ∧ (discountRow fmt0 dataNeg).call.amount = JsVal.num (-5)
        ∧ (discountRow fmt0 dataNeg).amountText = "- " ++ fmt0 ((discountRow fmt0 dataNeg).call))
      ∧ (giftCardRow fmt0 dataNeg ∈ CartTotals fmt0 dataNeg
        ∧ (giftCardRow fmt0 dataNeg).call.amount = JsVal.num (-5)
        ∧ (giftCardRow fmt0 dataNeg).amountText = "- " ++ fmt0 ((giftCardRow fmt0 dataNeg).call)) :=
  ⟨(negative_deduction_double_marker fmt0 dataNeg (-5) (by norm_num)).1 rfl,
    (negative_deduction_double_marker fmt0 dataNeg (-5) (by norm_num)).2 rfl⟩

/-- Claim C10: a NaN monetary field behaves as if absent: the amount passed to
the formatter and the exposed raw value are the number 0 (`amount || 0`
coerces NaN to 0), and a NaN `discount_total` or `gift_card_total` leaves its
row hidden (`!!NaN` is false). -/
theorem nan_treated_as_absent (fmt : FormatArgs → String) (data : TotalsRecord) :
    (getAmountArgs data JsVal.nan).amount = JsVal.num 0
      ∧ jsOr JsVal.nan = JsVal.num 0
      ∧ (data.subtotal = JsVal.nan →
          ∀ r ∈ CartTotals fmt data, r.testId = "cart-subtotal" →
            r.dataValue = JsVal.num 0 ∧ r.call.amount = JsVal.num 0)
      ∧ (data.discount_total = JsVal.nan →
          ∀ r ∈ CartTotals fmt data, r.testId ≠ "cart-discount")
      ∧ (data.gift_card_total = JsVal.nan →
          ∀ r ∈ CartTotals fmt data, r.testId ≠ "cart-gift-card-amount") := by
  refine ⟨rfl, rfl, ?_, ?_, ?_⟩
  all_goals
    intro h r hr
    rcases (mem_CartTotals fmt data r).1 hr with h1 | ⟨ht, h1⟩ | h1 | h1 | ⟨ht, h1⟩ | h1 <;>
      subst h1 <;>
      simp_all [subtotalRow, discountRow, shippingRow, taxesRow, giftCardRow, totalRow,
        getAmountArgs, jsOr, JsVal.truthy]

/-- Claim C10, witness: with every field NaN the Subtotal row exposes raw
value 0 and formats amount 0, and no row is the Discount or Gift-card row. -/
theorem nan_treated_as_absent_witness :
    ((subtotalRow fmt0 dataNanAll).dataValue = JsVal.num 0
        ∧ (subtotalRow fmt0 dataNanAll).call.amount = JsVal.num 0)
      ∧ (subtotalRow fmt0 dataNanAll).testId ≠ "cart-discount"
      ∧ (subtotalRow fmt0 dataNanAll).testId ≠ "cart-gift-card-amount" :=
  ⟨(nan_treated_as_absent fmt0 dataNanAll).2.2.1 rfl (subtotalRow fmt0 dataNanAll)
      ((mem_CartTotals fmt0 dataNanAll _).2 (Or.inl rfl)) rfl,
    (nan_treated_as_absent fmt0 dataNanAll).2.2.2.1 rfl (subtotalRow fmt0 dataNanAll)
      ((mem_CartTotals fmt0 dataNanAll _).2 (Or.inl rfl)),
    (nan_treated_as_absent fmt0 dataNanAll).2.2.2.2 rfl (subtotalRow fmt0 dataNanAll)
      ((mem_CartTotals fmt0 dataNanAll _).2 (Or.inl rfl))⟩

end ShpcStore
